import Mathlib

/-!
Shallow embedding of the AMSKY01 INDI weather driver
(`src/drivers/weather/AMSKY01/amsky01_api.{h,cpp}`).

The driver polls an HTTP endpoint, parses a JSON body with three optional
namespaces (`hygro`, `light`, `cloud`) into an in-memory snapshot
(`weatherData`), and republishes values to the host framework via
`setParameterValue`.  Doubles carry no arithmetic here (values are only
copied from the document into the snapshot), so numeric values are
modelled by `ℚ`.  The jsoncpp string parse of the HTTP body is modelled
by its outcome: `Option Json` (`none` = the top-level parse failed).
`setParameterValue` calls are modelled as an ordered publication log.
-/

namespace AMSKY01

/-- JSON values as produced by jsoncpp's `parseFromStream`.  Objects are
association lists from member name to value. -/
inductive Json where
  | null : Json
  | bool (b : Bool) : Json
  | num (q : ℚ) : Json
  | str (s : String) : Json
  | arr (elems : List Json) : Json
  | obj (members : List (String × Json)) : Json

/-- jsoncpp `Value::isNull`. -/
def Json.isNull : Json → Bool
  | .null => true
  | _ => false

/-- jsoncpp `Value::isObject`. -/
def Json.isObject : Json → Bool
  | .obj _ => true
  | _ => false

/-- jsoncpp `const Value::operator[](key)` on an object: the member when
present, otherwise a null value.  (The driver only applies it to values
already checked to be objects.) -/
def Json.getMem : Json → String → Json
  | .obj ms, k => (ms.lookup k).getD .null
  | _, _ => .null

/-- jsoncpp `Value::isMember`: defined for null and object receivers; on
any other receiver the internal assertion fails, which with jsoncpp's
default configuration surfaces as a thrown exception (`Except.error`). -/
def Json.isMemberChk : Json → String → Except Unit Bool
  | .null, _ => .ok false
  | .obj ms, k => .ok (ms.lookup k).isSome
  | _, _ => .error ()

/-- jsoncpp `Value::asDouble`: numeric, boolean and null values convert;
strings, arrays and objects throw (`none` models the thrown exception). -/
def Json.asDoubleQ : Json → Option ℚ
  | .null => some 0
  | .bool b => some (if b then 1 else 0)
  | .num q => some q
  | _ => none

/-- The 5-slot `double cloudTemp[5]` array of the snapshot; slot `c4`
(index 4) is the one the parser writes from `cloud.center`. -/
@[ext] structure CloudTemps where
  c0 : ℚ := 0
  c1 : ℚ := 0
  c2 : ℚ := 0
  c3 : ℚ := 0
  c4 : ℚ := 0
deriving DecidableEq

/-- The driver's `weatherData` snapshot struct. -/
@[ext] structure WeatherData where
  temperature : ℚ := 0
  humidity : ℚ := 0
  dewPoint : ℚ := 0
  lux : ℚ := 0
  skyBrightness : ℚ := 0
  cloudTemp : CloudTemps := {}
  avgCloudTemp : ℚ := 0
  dataValid : Bool := false
deriving DecidableEq

/-- State threaded through one parse call: the snapshot plus the ordered
log of `setParameterValue (name, value)` calls made so far. -/
@[ext] structure ParseSt where
  w : WeatherData
  pubs : List (String × ℚ)
deriving DecidableEq

/-- `setParameterValue(name, value)`: records one publication to the host
framework. -/
def setParam (name : String) (v : ℚ) (s : ParseSt) : ParseSt :=
  { s with pubs := s.pubs ++ [(name, v)] }

/-- One guarded field assignment
`if (!ns["key"].isNull()) field = ns["key"].asDouble();`
inside the `try` block: skipped when the member is null, assigns on a
convertible value, and throws (`Except.error`, state unchanged by this
statement) when `asDouble` throws. -/
def assignField (ns : Json) (key : String) (upd : ℚ → WeatherData → WeatherData)
    (s : ParseSt) : Except ParseSt ParseSt :=
  if (ns.getMem key).isNull then .ok s
  else
    match (ns.getMem key).asDoubleQ with
    | some q => .ok { s with w := upd q s.w }
    | none => .error s

/-- The `hygro` block of `parseJSONData`: when `root.isMember("hygro")`
and the member is an object, assign `temp`, `rh`, `dew_point` in order and
then publish the three hygro parameters from the current snapshot. -/
def doHygro (root : Json) (s : ParseSt) : Except ParseSt ParseSt :=
  match root.isMemberChk "hygro" with
  | .error _ => .error s
  | .ok false => .ok s
  | .ok true =>
    let hygro := root.getMem "hygro"
    if hygro.isObject then
      match assignField hygro "temp" (fun q w => { w with temperature := q }) s with
      | .error s1 => .error s1
      | .ok s1 =>
        match assignField hygro "rh" (fun q w => { w with humidity := q }) s1 with
        | .error s2 => .error s2
        | .ok s2 =>
          match assignField hygro "dew_point" (fun q w => { w with dewPoint := q }) s2 with
          | .error s3 => .error s3
          | .ok s3 =>
            .ok (setParam "WEATHER_DEW_POINT" s3.w.dewPoint
                  (setParam "WEATHER_HUMIDITY" s3.w.humidity
                    (setParam "WEATHER_TEMPERATURE" s3.w.temperature s3)))
    else .ok s

/-- The `light` block of `parseJSONData`: assign `lux`, `sqm` and publish
the two light parameters from the current snapshot. -/
def doLight (root : Json) (s : ParseSt) : Except ParseSt ParseSt :=
  match root.isMemberChk "light" with
  | .error _ => .error s
  | .ok false => .ok s
  | .ok true =>
    let light := root.getMem "light"
    if light.isObject then
      match assignField light "lux" (fun q w => { w with lux := q }) s with
      | .error s1 => .error s1
      | .ok s1 =>
        match assignField light "sqm" (fun q w => { w with skyBrightness := q }) s1 with
        | .error s2 => .error s2
        | .ok s2 =>
          .ok (setParam "WEATHER_SKY_BRIGHTNESS" s2.w.skyBrightness
                (setParam "WEATHER_LIGHT_LUX" s2.w.lux s2))
    else .ok s

/-- The `cloud` block of `parseJSONData`: when `center` is non-null,
assign `cloudTemp[4]` and publish it; the publication happens only inside
the non-null branch. -/
def doCloud (root : Json) (s : ParseSt) : Except ParseSt ParseSt :=
  match root.isMemberChk "cloud" with
  | .error _ => .error s
  | .ok false => .ok s
  | .ok true =>
    let cloud := root.getMem "cloud"
    if cloud.isObject then
      if (cloud.getMem "center").isNull then .ok s
      else
        match (cloud.getMem "center").asDoubleQ with
        | some q =>
          let w1 : WeatherData := { s.w with cloudTemp := { s.w.cloudTemp with c4 := q } }
          .ok (setParam "WEATHER_SKY_TEMP_CENTER" w1.cloudTemp.c4 { s with w := w1 })
        | none => .error s
    else .ok s

/-- The `try { ... } catch` body of `parseJSONData` after a successful
top-level JSON parse: run the three namespace blocks in order; on normal
completion set `dataValid` and return `true`; a thrown exception is
caught and `false` is returned with the state as of the throw. -/
def parseBody (root : Json) (s : ParseSt) : Bool × ParseSt :=
  match doHygro root s with
  | .error s1 => (false, s1)
  | .ok s1 =>
    match doLight root s1 with
    | .error s2 => (false, s2)
    | .ok s2 =>
      match doCloud root s2 with
      | .error s3 => (false, s3)
      | .ok s3 => (true, ⟨{ s3.w with dataValid := true }, s3.pubs⟩)

/-- `AMSKY01_API::parseJSONData`: the input is the outcome of the
top-level jsoncpp parse of the body string (`none` = malformed document,
the function logs and returns `false` with nothing changed). -/
def parseJSONData (input : Option Json) (w : WeatherData) : Bool × ParseSt :=
  match input with
  | none => (false, ⟨w, []⟩)
  | some root => parseBody root ⟨w, []⟩

/-- Outcome of the transport part of one `readHTTPData` call:
whether `curl_easy_init` succeeded, whether `curl_easy_perform` returned
`CURLE_OK`, the HTTP response code, and the body (as its top-level JSON
parse outcome, `none` = not valid JSON). -/
structure HttpAttempt where
  initOk : Bool
  curlOk : Bool
  httpCode : Int
  body : Option Json

/-- `AMSKY01_API::readHTTPData`: fails on curl-init failure, transport
error, or non-200 status, all without touching the snapshot; otherwise
hands the body to `parseJSONData`. -/
def readHTTPData (a : HttpAttempt) (w : WeatherData) : Bool × ParseSt :=
  if a.initOk = false then (false, ⟨w, []⟩)
  else if a.curlOk = false then (false, ⟨w, []⟩)
  else if a.httpCode ≠ 200 then (false, ⟨w, []⟩)
  else parseJSONData a.body w

/-- `AMSKY01_API::Connect`: one synchronous `readHTTPData` attempt; its
boolean result is the connect result. -/
def Connect (a : HttpAttempt) (w : WeatherData) : Bool × ParseSt :=
  readHTTPData a w

/-- The INDI property states used by the driver. -/
inductive IPState where
  | IPS_IDLE
  | IPS_OK
  | IPS_BUSY
  | IPS_ALERT
deriving DecidableEq

/-- `AMSKY01_API::updateWeather`: alert while no valid data, OK once the
snapshot has been populated. -/
def updateWeather (w : WeatherData) : IPState :=
  if w.dataValid = false then .IPS_ALERT else .IPS_OK

/-- Driver-level state: INDI connection flag, the snapshot, the current
polling period and the configured endpoint URL. -/
structure Driver where
  connected : Bool
  weather : WeatherData
  pollingPeriod : Nat
  apiUrl : String
deriving DecidableEq

/-- The eagerly constructed driver instance: zero-valued snapshot,
disconnected, 2000 ms polling, default endpoint URL. -/
def initialDriver : Driver :=
  { connected := false
    weather := {}
    pollingPeriod := 2000
    apiUrl := "http://localhost:8080/data.json" }

/-- Observable outcome of one `TimerHit` call: the driver state after the
call, whether a poll (`readHTTPData`) was performed, and the `SetTimer`
argument (always re-armed, at the current polling period). -/
structure TimerHitResult where
  d : Driver
  polled : Bool
  timerArmedAt : Option Nat
deriving DecidableEq

/-- `AMSKY01_API::TimerHit`: when disconnected, only re-arm the timer;
when connected, perform one poll and re-arm the timer regardless of the
poll's outcome. -/
def TimerHit (a : HttpAttempt) (d : Driver) : TimerHitResult :=
  if d.connected = false then ⟨d, false, some d.pollingPeriod⟩
  else ⟨{ d with weather := (readHTTPData a d.weather).2.w }, true, some d.pollingPeriod⟩

/-- The externally triggered operations that can touch driver state. -/
inductive Op where
  | connect (a : HttpAttempt)
  | disconnect
  | timerHit (a : HttpAttempt)
  | updateWeatherOp
  | parse (input : Option Json)
  | setUrl (u : String)

/-- Effect of one operation on the driver state.  `connect` runs one poll
and becomes connected exactly when it succeeds; `disconnect` always
succeeds; `timerHit` is `TimerHit`; `updateWeather` is a pure status
judgment; `parse` is the parse step a successful poll performs;
`setUrl` is the `ISNewText` handler storing a new endpoint URL. -/
def applyOp (op : Op) (d : Driver) : Driver :=
  match op with
  | .connect a =>
    let r := readHTTPData a d.weather
    { d with weather := r.2.w, connected := d.connected || r.1 }
  | .disconnect => { d with connected := false }
  | .timerHit a => (TimerHit a d).d
  | .updateWeatherOp => d
  | .parse input => { d with weather := (parseJSONData input d.weather).2.w }
  | .setUrl u => { d with apiUrl := u }

/-- Run a sequence of operations from a driver state. -/
def run (ops : List Op) (d : Driver) : Driver :=
  ops.foldl (fun d op => applyOp op d) d

/-- Whether an operation performed a successful parse of a document (the
only event that can set the validity flag). -/
def opParseSucceeded (op : Op) (d : Driver) : Bool :=
  match op with
  | .connect a => (readHTTPData a d.weather).1
  | .timerHit a => d.connected && (readHTTPData a d.weather).1
  | .parse input => (parseJSONData input d.weather).1
  | _ => false

/-!  Document-level characterizations of the parse: which conditions of a
document drive each branch of `parseBody`, and closed forms for the
resulting snapshot and publication log.  These are all functions of the
document (and the prior snapshot) only. -/

/-- `isMember` throws on this receiver (it is neither null nor object). -/
def memThrows : Json → Bool
  | .null => false
  | .obj _ => false
  | _ => true

/-- The receiver has this member (only objects have members). -/
def hasMem : Json → String → Bool
  | .obj ms, k => (ms.lookup k).isSome
  | _, _ => false

/-- The member is null (or absent, which reads as null). -/
def fNull (ns : Json) (key : String) : Bool :=
  (ns.getMem key).isNull

/-- Reading this member as a double throws (present, not convertible). -/
def fThrows (ns : Json) (key : String) : Bool :=
  !(ns.getMem key).isNull && (ns.getMem key).asDoubleQ.isNone

/-- This member gets assigned (present and convertible). -/
def fAssigned (ns : Json) (key : String) : Bool :=
  !(ns.getMem key).isNull && (ns.getMem key).asDoubleQ.isSome

/-- The numeric value a convertible member assigns. -/
def fVal (ns : Json) (key : String) : ℚ :=
  (ns.getMem key).asDoubleQ.getD 0

/-- The `hygro` block body runs (member present and an object). -/
def hygroActive (root : Json) : Bool :=
  !memThrows root && hasMem root "hygro" && (root.getMem "hygro").isObject

/-- The `light` block body runs. -/
def lightActive (root : Json) : Bool :=
  !memThrows root && hasMem root "light" && (root.getMem "light").isObject

/-- The `cloud` block body runs. -/
def cloudActive (root : Json) : Bool :=
  !memThrows root && hasMem root "cloud" && (root.getMem "cloud").isObject

/-- The `hygro` block throws. -/
def hThrow (root : Json) : Bool :=
  memThrows root ||
    (hygroActive root &&
      (fThrows (root.getMem "hygro") "temp" || fThrows (root.getMem "hygro") "rh" ||
        fThrows (root.getMem "hygro") "dew_point"))

/-- The `light` block throws (given control reaches it). -/
def lThrow (root : Json) : Bool :=
  memThrows root ||
    (lightActive root &&
      (fThrows (root.getMem "light") "lux" || fThrows (root.getMem "light") "sqm"))

/-- The `cloud` block throws (given control reaches it). -/
def cThrow (root : Json) : Bool :=
  memThrows root || (cloudActive root && fThrows (root.getMem "cloud") "center")

/-- Some statement of the `try` block throws: the parse returns failure. -/
def extractionThrows (root : Json) : Bool :=
  hThrow root || lThrow root || cThrow root

/-- Snapshot after the `hygro` block (partial assignments included:
a field is updated only when no earlier field of the block threw). -/
def hWAfter (root : Json) (w : WeatherData) : WeatherData :=
  if hygroActive root then
    let h := root.getMem "hygro"
    { w with
      temperature := if fAssigned h "temp" then fVal h "temp" else w.temperature
      humidity :=
        if !fThrows h "temp" && fAssigned h "rh" then fVal h "rh" else w.humidity
      dewPoint :=
        if !fThrows h "temp" && !fThrows h "rh" && fAssigned h "dew_point" then
          fVal h "dew_point"
        else w.dewPoint }
  else w

/-- Publications of the `hygro` block (meaningful when it does not throw):
all three parameters, from the snapshot after its assignments. -/
def hPubs (root : Json) (w : WeatherData) : List (String × ℚ) :=
  if hygroActive root then
    [("WEATHER_TEMPERATURE", (hWAfter root w).temperature),
     ("WEATHER_HUMIDITY", (hWAfter root w).humidity),
     ("WEATHER_DEW_POINT", (hWAfter root w).dewPoint)]
  else []

/-- Snapshot after the `light` block. -/
def lWAfter (root : Json) (w : WeatherData) : WeatherData :=
  if lightActive root then
    let l := root.getMem "light"
    { w with
      lux := if fAssigned l "lux" then fVal l "lux" else w.lux
      skyBrightness :=
        if !fThrows l "lux" && fAssigned l "sqm" then fVal l "sqm" else w.skyBrightness }
  else w

/-- Publications of the `light` block (meaningful when it does not throw). -/
def lPubs (root : Json) (w : WeatherData) : List (String × ℚ) :=
  if lightActive root then
    [("WEATHER_LIGHT_LUX", (lWAfter root w).lux),
     ("WEATHER_SKY_BRIGHTNESS", (lWAfter root w).skyBrightness)]
  else []

/-- Snapshot after the `cloud` block. -/
def cWAfter (root : Json) (w : WeatherData) : WeatherData :=
  if cloudActive root && fAssigned (root.getMem "cloud") "center" then
    { w with cloudTemp := { w.cloudTemp with c4 := fVal (root.getMem "cloud") "center" } }
  else w

/-- Publication of the `cloud` block: only when `center` was assigned. -/
def cPubs (root : Json) (w : WeatherData) : List (String × ℚ) :=
  if cloudActive root && fAssigned (root.getMem "cloud") "center" then
    [("WEATHER_SKY_TEMP_CENTER", (cWAfter root w).cloudTemp.c4)]
  else []

/-- Closed form of the snapshot after `parseBody` (success or failure). -/
def wAfter (root : Json) (w : WeatherData) : WeatherData :=
  if hThrow root then hWAfter root w
  else if lThrow root then lWAfter root (hWAfter root w)
  else if cThrow root then cWAfter root (lWAfter root (hWAfter root w))
  else
    { cWAfter root (lWAfter root (hWAfter root w)) with dataValid := true }

/-- Closed form of the publication log of one `parseBody` call. -/
def pubsAfter (root : Json) (w : WeatherData) : List (String × ℚ) :=
  if hThrow root then []
  else
    hPubs root w ++
      if lThrow root then []
      else
        lPubs root (hWAfter root w) ++
          if cThrow root then []
          else cPubs root (lWAfter root (hWAfter root w))

/-- The document provides a readable `cloud.center` member. -/
def centerProvided (root : Json) : Bool :=
  cloudActive root && !((root.getMem "cloud").getMem "center").isNull

/-!  Characterization lemmas: each namespace block of `parseBody` equals
its closed form. -/

lemma getMem_obj (ms : List (String × Json)) (k : String) :
    (Json.obj ms).getMem k = (ms.lookup k).getD Json.null := rfl

lemma isMemberChk_eq (root : Json) (k : String) :
    root.isMemberChk k =
      if memThrows root then Except.error () else Except.ok (hasMem root k) := by
  cases root <;> rfl

/-- Every JSON member is null, throwing, or convertible with some value. -/
lemma tri_mem (v : Json) :
    v.isNull = true ∨ (v.isNull = false ∧ v.asDoubleQ = none) ∨
      ∃ q, v.isNull = false ∧ v.asDoubleQ = some q := by
  cases v <;> simp [Json.isNull, Json.asDoubleQ]

lemma doHygro_eq (root : Json) (s : ParseSt) :
    doHygro root s =
      if hThrow root then Except.error ⟨hWAfter root s.w, s.pubs⟩
      else Except.ok ⟨hWAfter root s.w, s.pubs ++ hPubs root s.w⟩ := by
  obtain ⟨w, p⟩ := s
  cases root with
  | obj ms =>
    rcases e : ms.lookup "hygro" with _ | hv
    · simp [doHygro, Json.isMemberChk, e, hThrow, hWAfter, hPubs,
        hygroActive, memThrows, hasMem]
    · by_cases hobj : hv.isObject
      · rcases tri_mem (hv.getMem "temp") with
          ht | ⟨ht, ht'⟩ | ⟨qt, ht, ht'⟩ <;>
        rcases tri_mem (hv.getMem "rh") with
          hr | ⟨hr, hr'⟩ | ⟨qr, hr, hr'⟩ <;>
        rcases tri_mem (hv.getMem "dew_point") with
          hd | ⟨hd, hd'⟩ | ⟨qd, hd, hd'⟩ <;>
        simp [doHygro, Json.isMemberChk, getMem_obj, assignField,
          setParam, hThrow, hWAfter, hPubs, hygroActive, memThrows, hasMem,
          fThrows, fAssigned, fVal, *]
      · simp [doHygro, Json.isMemberChk, getMem_obj, e, hobj, hThrow,
          hWAfter, hPubs, hygroActive, memThrows, hasMem]
  | null =>
    simp [doHygro, Json.isMemberChk, hThrow, hWAfter, hPubs, hygroActive,
      memThrows, hasMem]
  | bool b =>
    simp [doHygro, Json.isMemberChk, hThrow, hWAfter, hPubs, hygroActive,
      memThrows, hasMem]
  | num q =>
    simp [doHygro, Json.isMemberChk, hThrow, hWAfter, hPubs, hygroActive,
      memThrows, hasMem]
  | str st =>
    simp [doHygro, Json.isMemberChk, hThrow, hWAfter, hPubs, hygroActive,
      memThrows, hasMem]
  | arr es =>
    simp [doHygro, Json.isMemberChk, hThrow, hWAfter, hPubs, hygroActive,
      memThrows, hasMem]

lemma doLight_eq (root : Json) (s : ParseSt) :
    doLight root s =
      if lThrow root then Except.error ⟨lWAfter root s.w, s.pubs⟩
      else Except.ok ⟨lWAfter root s.w, s.pubs ++ lPubs root s.w⟩ := by
  obtain ⟨w, p⟩ := s
  cases root with
  | obj ms =>
    rcases e : ms.lookup "light" with _ | lv
    · simp [doLight, Json.isMemberChk, e, lThrow, lWAfter, lPubs,
        lightActive, memThrows, hasMem]
    · by_cases hobj : lv.isObject
      · rcases tri_mem (lv.getMem "lux") with
          hl | ⟨hl, hl'⟩ | ⟨ql, hl, hl'⟩ <;>
        rcases tri_mem (lv.getMem "sqm") with
          hq | ⟨hq, hq'⟩ | ⟨qq, hq, hq'⟩ <;>
        simp [doLight, Json.isMemberChk, getMem_obj, assignField,
          setParam, lThrow, lWAfter, lPubs, lightActive, memThrows, hasMem,
          fThrows, fAssigned, fVal, *]
      · simp [doLight, Json.isMemberChk, getMem_obj, e, hobj, lThrow,
          lWAfter, lPubs, lightActive, memThrows, hasMem]
  | null =>
    simp [doLight, Json.isMemberChk, lThrow, lWAfter, lPubs, lightActive,
      memThrows, hasMem]
  | bool b =>
    simp [doLight, Json.isMemberChk, lThrow, lWAfter, lPubs, lightActive,
      memThrows, hasMem]
  | num q =>
    simp [doLight, Json.isMemberChk, lThrow, lWAfter, lPubs, lightActive,
      memThrows, hasMem]
  | str st =>
    simp [doLight, Json.isMemberChk, lThrow, lWAfter, lPubs, lightActive,
      memThrows, hasMem]
  | arr es =>
    simp [doLight, Json.isMemberChk, lThrow, lWAfter, lPubs, lightActive,
      memThrows, hasMem]

lemma doCloud_eq (root : Json) (s : ParseSt) :
    doCloud root s =
      if cThrow root then Except.error ⟨cWAfter root s.w, s.pubs⟩
      else Except.ok ⟨cWAfter root s.w, s.pubs ++ cPubs root s.w⟩ := by
  obtain ⟨w, p⟩ := s
  cases root with
  | obj ms =>
    rcases e : ms.lookup "cloud" with _ | cv
    · simp [doCloud, Json.isMemberChk, e, cThrow, cWAfter, cPubs,
        cloudActive, memThrows, hasMem]
    · by_cases hobj : cv.isObject
      · rcases tri_mem (cv.getMem "center") with
          hc | ⟨hc, hc'⟩ | ⟨qc, hc, hc'⟩ <;>
        simp [doCloud, Json.isMemberChk, getMem_obj, setParam, cThrow,
          cWAfter, cPubs, cloudActive, memThrows, hasMem,
          fThrows, fAssigned, fVal, *]
      · simp [doCloud, Json.isMemberChk, getMem_obj, e, hobj, cThrow,
          cWAfter, cPubs, cloudActive, memThrows, hasMem]
  | null =>
    simp [doCloud, Json.isMemberChk, cThrow, cWAfter, cPubs, cloudActive,
      memThrows, hasMem]
  | bool b =>
    simp [doCloud, Json.isMemberChk, cThrow, cWAfter, cPubs, cloudActive,
      memThrows, hasMem]
  | num q =>
    simp [doCloud, Json.isMemberChk, cThrow, cWAfter, cPubs, cloudActive,
      memThrows, hasMem]
  | str st =>
    simp [doCloud, Json.isMemberChk, cThrow, cWAfter, cPubs, cloudActive,
      memThrows, hasMem]
  | arr es =>
    simp [doCloud, Json.isMemberChk, cThrow, cWAfter, cPubs, cloudActive,
      memThrows, hasMem]

/-- Master characterization of the `try` body: result flag and closed
forms of the snapshot and publication log. -/
lemma parseBody_eq (root : Json) (s : ParseSt) :
    parseBody root s =
      (!extractionThrows root, ⟨wAfter root s.w, s.pubs ++ pubsAfter root s.w⟩) := by
  by_cases h1 : hThrow root <;> by_cases h2 : lThrow root <;>
    by_cases h3 : cThrow root <;>
    simp [parseBody, doHygro_eq, doLight_eq, doCloud_eq, extractionThrows,
      wAfter, pubsAfter, h1, h2, h3]

/-- Master characterization of `parseJSONData` on an accepted document. -/
lemma parseJSONData_some (root : Json) (w : WeatherData) :
    parseJSONData (some root) w =
      (!extractionThrows root, ⟨wAfter root w, pubsAfter root w⟩) := by
  simp [parseJSONData, parseBody_eq]

/-!  Field-level frame and update lemmas of the closed forms. -/

lemma hWAfter_lux (root : Json) (w : WeatherData) :
    (hWAfter root w).lux = w.lux := by
  simp only [hWAfter]; split <;> rfl

lemma hWAfter_skyBrightness (root : Json) (w : WeatherData) :
    (hWAfter root w).skyBrightness = w.skyBrightness := by
  simp only [hWAfter]; split <;> rfl

lemma hWAfter_cloudTemp (root : Json) (w : WeatherData) :
    (hWAfter root w).cloudTemp = w.cloudTemp := by
  simp only [hWAfter]; split <;> rfl

lemma hWAfter_avgCloudTemp (root : Json) (w : WeatherData) :
    (hWAfter root w).avgCloudTemp = w.avgCloudTemp := by
  simp only [hWAfter]; split <;> rfl

lemma hWAfter_dataValid (root : Json) (w : WeatherData) :
    (hWAfter root w).dataValid = w.dataValid := by
  simp only [hWAfter]; split <;> rfl

lemma hWAfter_temperature (root : Json) (w : WeatherData) :
    (hWAfter root w).temperature =
      if hygroActive root && fAssigned (root.getMem "hygro") "temp" then
        fVal (root.getMem "hygro") "temp"
      else w.temperature := by
  simp only [hWAfter]
  by_cases h : hygroActive root <;>
    by_cases h2 : fAssigned (root.getMem "hygro") "temp" <;> simp [h, h2]

lemma hWAfter_humidity (root : Json) (w : WeatherData) :
    (hWAfter root w).humidity =
      if hygroActive root && !fThrows (root.getMem "hygro") "temp" &&
          fAssigned (root.getMem "hygro") "rh" then
        fVal (root.getMem "hygro") "rh"
      else w.humidity := by
  simp only [hWAfter]
  by_cases h : hygroActive root <;>
    by_cases h2 : fThrows (root.getMem "hygro") "temp" <;>
    by_cases h3 : fAssigned (root.getMem "hygro") "rh" <;> simp [h, h2, h3]

lemma hWAfter_dewPoint (root : Json) (w : WeatherData) :
    (hWAfter root w).dewPoint =
      if hygroActive root && !fThrows (root.getMem "hygro") "temp" &&
          !fThrows (root.getMem "hygro") "rh" &&
          fAssigned (root.getMem "hygro") "dew_point" then
        fVal (root.getMem "hygro") "dew_point"
      else w.dewPoint := by
  simp only [hWAfter]
  by_cases h : hygroActive root <;>
    by_cases h2 : fThrows (root.getMem "hygro") "temp" <;>
    by_cases h3 : fThrows (root.getMem "hygro") "rh" <;>
    by_cases h4 : fAssigned (root.getMem "hygro") "dew_point" <;>
    simp [h, h2, h3, h4]

lemma lWAfter_temperature (root : Json) (w : WeatherData) :
    (lWAfter root w).temperature = w.temperature := by
  simp only [lWAfter]; split <;> rfl

lemma lWAfter_humidity (root : Json) (w : WeatherData) :
    (lWAfter root w).humidity = w.humidity := by
  simp only [lWAfter]; split <;> rfl

lemma lWAfter_dewPoint (root : Json) (w : WeatherData) :
    (lWAfter root w).dewPoint = w.dewPoint := by
  simp only [lWAfter]; split <;> rfl

lemma lWAfter_cloudTemp (root : Json) (w : WeatherData) :
    (lWAfter root w).cloudTemp = w.cloudTemp := by
  simp only [lWAfter]; split <;> rfl

lemma lWAfter_avgCloudTemp (root : Json) (w : WeatherData) :
    (lWAfter root w).avgCloudTemp = w.avgCloudTemp := by
  simp only [lWAfter]; split <;> rfl

lemma lWAfter_dataValid (root : Json) (w : WeatherData) :
    (lWAfter root w).dataValid = w.dataValid := by
  simp only [lWAfter]; split <;> rfl

lemma lWAfter_lux (root : Json) (w : WeatherData) :
    (lWAfter root w).lux =
      if lightActive root && fAssigned (root.getMem "light") "lux" then
        fVal (root.getMem "light") "lux"
      else w.lux := by
  simp only [lWAfter]
  by_cases h : lightActive root <;>
    by_cases h2 : fAssigned (root.getMem "light") "lux" <;> simp [h, h2]

lemma lWAfter_skyBrightness (root : Json) (w : WeatherData) :
    (lWAfter root w).skyBrightness =
      if lightActive root && !fThrows (root.getMem "light") "lux" &&
          fAssigned (root.getMem "light") "sqm" then
        fVal (root.getMem "light") "sqm"
      else w.skyBrightness := by
  simp only [lWAfter]
  by_cases h : lightActive root <;>
    by_cases h2 : fThrows (root.getMem "light") "lux" <;>
    by_cases h3 : fAssigned (root.getMem "light") "sqm" <;> simp [h, h2, h3]

lemma cWAfter_temperature (root : Json) (w : WeatherData) :
    (cWAfter root w).temperature = w.temperature := by
  simp only [cWAfter]; split <;> rfl

lemma cWAfter_humidity (root : Json) (w : WeatherData) :
    (cWAfter root w).humidity = w.humidity := by
  simp only [cWAfter]; split <;> rfl

lemma cWAfter_dewPoint (root : Json) (w : WeatherData) :
    (cWAfter root w).dewPoint = w.dewPoint := by
  simp only [cWAfter]; split <;> rfl

lemma cWAfter_lux (root : Json) (w : WeatherData) :
    (cWAfter root w).lux = w.lux := by
  simp only [cWAfter]; split <;> rfl

lemma cWAfter_skyBrightness (root : Json) (w : WeatherData) :
    (cWAfter root w).skyBrightness = w.skyBrightness := by
  simp only [cWAfter]; split <;> rfl

lemma cWAfter_avgCloudTemp (root : Json) (w : WeatherData) :
    (cWAfter root w).avgCloudTemp = w.avgCloudTemp := by
  simp only [cWAfter]; split <;> rfl

lemma cWAfter_dataValid (root : Json) (w : WeatherData) :
    (cWAfter root w).dataValid = w.dataValid := by
  simp only [cWAfter]; split <;> rfl

lemma cWAfter_c0 (root : Json) (w : WeatherData) :
    (cWAfter root w).cloudTemp.c0 = w.cloudTemp.c0 := by
  simp only [cWAfter]; split <;> rfl

lemma cWAfter_c1 (root : Json) (w : WeatherData) :
    (cWAfter root w).cloudTemp.c1 = w.cloudTemp.c1 := by
  simp only [cWAfter]; split <;> rfl

lemma cWAfter_c2 (root : Json) (w : WeatherData) :
    (cWAfter root w).cloudTemp.c2 = w.cloudTemp.c2 := by
  simp only [cWAfter]; split <;> rfl

lemma cWAfter_c3 (root : Json) (w : WeatherData) :
    (cWAfter root w).cloudTemp.c3 = w.cloudTemp.c3 := by
  simp only [cWAfter]; split <;> rfl

lemma cWAfter_c4 (root : Json) (w : WeatherData) :
    (cWAfter root w).cloudTemp.c4 =
      if cloudActive root && fAssigned (root.getMem "cloud") "center" then
        fVal (root.getMem "cloud") "center"
      else w.cloudTemp.c4 := by
  simp only [cWAfter]
  by_cases h : cloudActive root && fAssigned (root.getMem "cloud") "center" <;>
    simp [h]

/-!  Per-field closed forms of the whole parse (`wAfter`): every sensor
field is either kept or set to a value read off the document, and the
validity flag is set exactly on success. -/

lemma wAfter_temperature (root : Json) (w : WeatherData) :
    (wAfter root w).temperature = (hWAfter root w).temperature := by
  simp only [wAfter]
  split <;> [rfl; split <;>
    [rw [lWAfter_temperature]; split <;>
      simp [cWAfter_temperature, lWAfter_temperature]]]

lemma wAfter_humidity (root : Json) (w : WeatherData) :
    (wAfter root w).humidity = (hWAfter root w).humidity := by
  simp only [wAfter]
  split <;> [rfl; split <;>
    [rw [lWAfter_humidity]; split <;>
      simp [cWAfter_humidity, lWAfter_humidity]]]

lemma wAfter_dewPoint (root : Json) (w : WeatherData) :
    (wAfter root w).dewPoint = (hWAfter root w).dewPoint := by
  simp only [wAfter]
  split <;> [rfl; split <;>
    [rw [lWAfter_dewPoint]; split <;>
      simp [cWAfter_dewPoint, lWAfter_dewPoint]]]

lemma wAfter_lux (root : Json) (w : WeatherData) :
    (wAfter root w).lux =
      if !hThrow root && (lightActive root && fAssigned (root.getMem "light") "lux") then
        fVal (root.getMem "light") "lux"
      else w.lux := by
  simp only [wAfter]
  by_cases h1 : hThrow root <;> by_cases h2 : lThrow root <;>
    by_cases h3 : cThrow root <;>
    simp [h1, h2, h3, hWAfter_lux, lWAfter_lux, cWAfter_lux]

lemma wAfter_skyBrightness (root : Json) (w : WeatherData) :
    (wAfter root w).skyBrightness =
      if !hThrow root && (lightActive root && !fThrows (root.getMem "light") "lux" &&
          fAssigned (root.getMem "light") "sqm") then
        fVal (root.getMem "light") "sqm"
      else w.skyBrightness := by
  simp only [wAfter]
  by_cases h1 : hThrow root <;> by_cases h2 : lThrow root <;>
    by_cases h3 : cThrow root <;>
    simp [h1, h2, h3, hWAfter_skyBrightness, lWAfter_skyBrightness,
      cWAfter_skyBrightness]

lemma wAfter_c4 (root : Json) (w : WeatherData) :
    (wAfter root w).cloudTemp.c4 =
      if !hThrow root && !lThrow root &&
          (cloudActive root && fAssigned (root.getMem "cloud") "center") then
        fVal (root.getMem "cloud") "center"
      else w.cloudTemp.c4 := by
  simp only [wAfter]
  by_cases h1 : hThrow root <;> by_cases h2 : lThrow root <;>
    by_cases h3 : cThrow root <;>
    simp [h1, h2, h3, hWAfter_cloudTemp, lWAfter_cloudTemp, cWAfter_c4]

lemma wAfter_c0 (root : Json) (w : WeatherData) :
    (wAfter root w).cloudTemp.c0 = w.cloudTemp.c0 := by
  simp only [wAfter]
  by_cases h1 : hThrow root <;> by_cases h2 : lThrow root <;>
    by_cases h3 : cThrow root <;>
    simp [h1, h2, h3, hWAfter_cloudTemp, lWAfter_cloudTemp, cWAfter_c0]

lemma wAfter_c1 (root : Json) (w : WeatherData) :
    (wAfter root w).cloudTemp.c1 = w.cloudTemp.c1 := by
  simp only [wAfter]
  by_cases h1 : hThrow root <;> by_cases h2 : lThrow root <;>
    by_cases h3 : cThrow root <;>
    simp [h1, h2, h3, hWAfter_cloudTemp, lWAfter_cloudTemp, cWAfter_c1]

lemma wAfter_c2 (root : Json) (w : WeatherData) :
    (wAfter root w).cloudTemp.c2 = w.cloudTemp.c2 := by
  simp only [wAfter]
  by_cases h1 : hThrow root <;> by_cases h2 : lThrow root <;>
    by_cases h3 : cThrow root <;>
    simp [h1, h2, h3, hWAfter_cloudTemp, lWAfter_cloudTemp, cWAfter_c2]

lemma wAfter_c3 (root : Json) (w : WeatherData) :
    (wAfter root w).cloudTemp.c3 = w.cloudTemp.c3 := by
  simp only [wAfter]
  by_cases h1 : hThrow root <;> by_cases h2 : lThrow root <;>
    by_cases h3 : cThrow root <;>
    simp [h1, h2, h3, hWAfter_cloudTemp, lWAfter_cloudTemp, cWAfter_c3]

lemma wAfter_avgCloudTemp (root : Json) (w : WeatherData) :
    (wAfter root w).avgCloudTemp = w.avgCloudTemp := by
  simp only [wAfter]
  by_cases h1 : hThrow root <;> by_cases h2 : lThrow root <;>
    by_cases h3 : cThrow root <;>
    simp [h1, h2, h3, hWAfter_avgCloudTemp, lWAfter_avgCloudTemp, cWAfter_avgCloudTemp]

lemma wAfter_dataValid (root : Json) (w : WeatherData) :
    (wAfter root w).dataValid = (w.dataValid || !extractionThrows root) := by
  simp only [wAfter, extractionThrows]
  by_cases h1 : hThrow root <;> by_cases h2 : lThrow root <;>
    by_cases h3 : cThrow root <;>
    simp [h1, h2, h3, hWAfter_dataValid, lWAfter_dataValid, cWAfter_dataValid]

/-- The validity flag after any parse: its old value, or-ed with success.
Covers the malformed-document case as well. -/
lemma parseJSONData_dataValid (input : Option Json) (w : WeatherData) :
    (parseJSONData input w).2.w.dataValid =
      (w.dataValid || (parseJSONData input w).1) := by
  cases input with
  | none => simp [parseJSONData]
  | some root => simp [parseJSONData_some, wAfter_dataValid]

/-- The validity flag after any poll: its old value, or-ed with success. -/
lemma readHTTPData_dataValid (a : HttpAttempt) (w : WeatherData) :
    (readHTTPData a w).2.w.dataValid = (w.dataValid || (readHTTPData a w).1) := by
  simp only [readHTTPData]
  split <;> [simp; split <;> [simp; split <;> [simp; exact parseJSONData_dataValid a.body w]]]

/-- A value with a member is an object, so `isMember` cannot throw on it. -/
lemma hasMem_memThrows (root : Json) (k : String) (h : hasMem root k = true) :
    memThrows root = false := by
  cases root <;> simp_all [hasMem, memThrows]

/-!  Claim theorems. -/

/-- C1: the snapshot validity flag is false initially; after any
operation it is true exactly when it already was true or the operation
performed a successful parse (so no failure ever resets it, and it is
monotone); and `updateWeather` reports alert exactly while it is false
and OK exactly once it is true. -/
theorem validity_monotone_and_updateWeather :
    initialDriver.weather.dataValid = false ∧
    (∀ (op : Op) (d : Driver),
      ((applyOp op d).weather.dataValid = true ↔
        (d.weather.dataValid = true ∨ opParseSucceeded op d = true))) ∧
    (∀ w : WeatherData,
      (updateWeather w = IPState.IPS_ALERT ↔ w.dataValid = false) ∧
      (updateWeather w = IPState.IPS_OK ↔ w.dataValid = true)) := by
  refine ⟨rfl, ?_, ?_⟩
  · intro op d
    cases op with
    | connect a =>
      simp [applyOp, opParseSucceeded, readHTTPData_dataValid, Bool.or_eq_true]
    | disconnect => simp [applyOp, opParseSucceeded]
    | timerHit a =>
      by_cases hc : d.connected <;>
        simp [applyOp, TimerHit, opParseSucceeded, hc, readHTTPData_dataValid,
          Bool.or_eq_true]
    | updateWeatherOp => simp [applyOp, opParseSucceeded]
    | parse input =>
      simp [applyOp, opParseSucceeded, parseJSONData_dataValid, Bool.or_eq_true]
    | setUrl u => simp [applyOp, opParseSucceeded]
  · intro w
    cases hv : w.dataValid <;> simp [updateWeather, hv]

/-- C2: on a successful parse, every snapshot field of an absent
namespace keeps its previous value, and a field that is absent (null)
within a present namespace also keeps its previous value. -/
theorem parse_frame_absent (root : Json) (w : WeatherData)
    (hok : (parseJSONData (some root) w).1 = true) :
    ((hasMem root "hygro" = false →
        (parseJSONData (some root) w).2.w.temperature = w.temperature ∧
        (parseJSONData (some root) w).2.w.humidity = w.humidity ∧
        (parseJSONData (some root) w).2.w.dewPoint = w.dewPoint) ∧
      (hasMem root "light" = false →
        (parseJSONData (some root) w).2.w.lux = w.lux ∧
        (parseJSONData (some root) w).2.w.skyBrightness = w.skyBrightness) ∧
      (hasMem root "cloud" = false →
        (parseJSONData (some root) w).2.w.cloudTemp = w.cloudTemp)) ∧
    ((((root.getMem "hygro").getMem "temp").isNull = true →
        (parseJSONData (some root) w).2.w.temperature = w.temperature) ∧
      (((root.getMem "hygro").getMem "rh").isNull = true →
        (parseJSONData (some root) w).2.w.humidity = w.humidity) ∧
      (((root.getMem "hygro").getMem "dew_point").isNull = true →
        (parseJSONData (some root) w).2.w.dewPoint = w.dewPoint) ∧
      (((root.getMem "light").getMem "lux").isNull = true →
        (parseJSONData (some root) w).2.w.lux = w.lux) ∧
      (((root.getMem "light").getMem "sqm").isNull = true →
        (parseJSONData (some root) w).2.w.skyBrightness = w.skyBrightness) ∧
      (((root.getMem "cloud").getMem "center").isNull = true →
        (parseJSONData (some root) w).2.w.cloudTemp = w.cloudTemp)) := by
  rw [parseJSONData_some] at hok ⊢
  refine ⟨⟨?_, ?_, ?_⟩, ?_, ?_, ?_, ?_, ?_, ?_⟩ <;> intro h
  · simp [wAfter_temperature, wAfter_humidity, wAfter_dewPoint,
      hWAfter_temperature, hWAfter_humidity, hWAfter_dewPoint, hygroActive, h]
  · simp [wAfter_lux, wAfter_skyBrightness, lightActive, h]
  · refine CloudTemps.ext ?_ ?_ ?_ ?_ ?_ <;>
      simp [wAfter_c0, wAfter_c1, wAfter_c2, wAfter_c3, wAfter_c4,
        cloudActive, h]
  · simp [wAfter_temperature, hWAfter_temperature, fAssigned, h]
  · simp [wAfter_humidity, hWAfter_humidity, fAssigned, h]
  · simp [wAfter_dewPoint, hWAfter_dewPoint, fAssigned, h]
  · simp [wAfter_lux, fAssigned, h]
  · simp [wAfter_skyBrightness, fAssigned, h]
  · refine CloudTemps.ext ?_ ?_ ?_ ?_ ?_ <;>
      simp [wAfter_c0, wAfter_c1, wAfter_c2, wAfter_c3, wAfter_c4,
        fAssigned, h]

/-- C2 witness: a document with only a `light` namespace leaves the
hygro and cloud groups, and the absent `sqm` field, unchanged. -/
theorem parse_frame_absent_witness :
    (parseJSONData (some (Json.obj [("light", Json.obj [("lux", Json.num 7)])]))
        { temperature := 3 }).1 = true ∧
    (parseJSONData (some (Json.obj [("light", Json.obj [("lux", Json.num 7)])]))
        { temperature := 3 }).2.w.temperature =
      ({ temperature := 3 } : WeatherData).temperature ∧
    (parseJSONData (some (Json.obj [("light", Json.obj [("lux", Json.num 7)])]))
        { temperature := 3 }).2.w.skyBrightness =
      ({ temperature := 3 } : WeatherData).skyBrightness :=
  ⟨by decide,
    ((parse_frame_absent _ { temperature := 3 } (by decide)).1.1 (by decide)).1,
    (parse_frame_absent _ { temperature := 3 } (by decide)).2.2.2.2.2.1 (by decide)⟩

/-- C3 counterexample: a field-extraction exception is a failure mode
that does change the snapshot — `{"hygro":{"temp":1,"rh":"x"}}` fails
but has already stored the temperature, so failure is not atomic. -/
theorem parse_failure_not_atomic :
    (parseJSONData (some (Json.obj [("hygro",
        Json.obj [("temp", Json.num 1), ("rh", Json.str "x")])])) {}).1 = false ∧
    (parseJSONData (some (Json.obj [("hygro",
        Json.obj [("temp", Json.num 1), ("rh", Json.str "x")])])) {}).2.w ≠
      ({} : WeatherData) := by decide

/-- C3 amended: a transport error, curl-init failure, non-200 status or
JSON-parse error returns failure with the entire snapshot unchanged and
nothing published; a field-extraction exception also returns failure and
leaves the validity flag unchanged, but sensor fields assigned before the
exception keep their new values. -/
theorem poll_failure_handling :
    (∀ (a : HttpAttempt) (w : WeatherData),
      a.initOk = false ∨ a.curlOk = false ∨ a.httpCode ≠ 200 →
        readHTTPData a w = (false, ⟨w, []⟩)) ∧
    (∀ w : WeatherData, parseJSONData none w = (false, ⟨w, []⟩)) ∧
    (∀ (input : Option Json) (w : WeatherData),
      (parseJSONData input w).1 = false →
        (parseJSONData input w).2.w.dataValid = w.dataValid) := by
  refine ⟨?_, ?_, ?_⟩
  · intro a w h
    unfold readHTTPData
    split_ifs with h1 h2 h3 <;> first | rfl | (exfalso; tauto)
  · intro w; rfl
  · intro input w h
    rw [parseJSONData_dataValid, h, Bool.or_false]

/-- C3 witness: a 404 response and a malformed body each fail with the
snapshot unchanged; a failing extraction keeps the validity flag. -/
theorem poll_failure_handling_witness :
    readHTTPData ⟨true, true, 404, some (Json.obj [])⟩ {} = (false, ⟨{}, []⟩) ∧
    parseJSONData none {} = (false, ⟨{}, []⟩) ∧
    (parseJSONData (some (Json.str "x")) {}).2.w.dataValid =
      ({} : WeatherData).dataValid :=
  ⟨poll_failure_handling.1 _ {} (Or.inr (Or.inr (by decide))),
    poll_failure_handling.2.1 {},
    poll_failure_handling.2.2 _ {} (by decide)⟩

/-- C4: a document with all three namespaces and all fields numeric
parses successfully and stores every provided value exactly. -/
theorem parse_full_document (t rh dp lx sq ct : ℚ) (w : WeatherData) :
    (parseJSONData (some (Json.obj
      [("hygro", Json.obj
          [("temp", Json.num t), ("rh", Json.num rh), ("dew_point", Json.num dp)]),
       ("light", Json.obj [("lux", Json.num lx), ("sqm", Json.num sq)]),
       ("cloud", Json.obj [("center", Json.num ct)])])) w).1 = true ∧
    (parseJSONData (some (Json.obj
      [("hygro", Json.obj
          [("temp", Json.num t), ("rh", Json.num rh), ("dew_point", Json.num dp)]),
       ("light", Json.obj [("lux", Json.num lx), ("sqm", Json.num sq)]),
       ("cloud", Json.obj [("center", Json.num ct)])])) w).2.w.temperature = t ∧
    (parseJSONData (some (Json.obj
      [("hygro", Json.obj
          [("temp", Json.num t), ("rh", Json.num rh), ("dew_point", Json.num dp)]),
       ("light", Json.obj [("lux", Json.num lx), ("sqm", Json.num sq)]),
       ("cloud", Json.obj [("center", Json.num ct)])])) w).2.w.humidity = rh ∧
    (parseJSONData (some (Json.obj
      [("hygro", Json.obj
          [("temp", Json.num t), ("rh", Json.num rh), ("dew_point", Json.num dp)]),
       ("light", Json.obj [("lux", Json.num lx), ("sqm", Json.num sq)]),
       ("cloud", Json.obj [("center", Json.num ct)])])) w).2.w.dewPoint = dp ∧
    (parseJSONData (some (Json.obj
      [("hygro", Json.obj
          [("temp", Json.num t), ("rh", Json.num rh), ("dew_point", Json.num dp)]),
       ("light", Json.obj [("lux", Json.num lx), ("sqm", Json.num sq)]),
       ("cloud", Json.obj [("center", Json.num ct)])])) w).2.w.lux = lx ∧
    (parseJSONData (some (Json.obj
      [("hygro", Json.obj
          [("temp", Json.num t), ("rh", Json.num rh), ("dew_point", Json.num dp)]),
       ("light", Json.obj [("lux", Json.num lx), ("sqm", Json.num sq)]),
       ("cloud", Json.obj [("center", Json.num ct)])])) w).2.w.skyBrightness = sq ∧
    (parseJSONData (some (Json.obj
      [("hygro", Json.obj
          [("temp", Json.num t), ("rh", Json.num rh), ("dew_point", Json.num dp)]),
       ("light", Json.obj [("lux", Json.num lx), ("sqm", Json.num sq)]),
       ("cloud", Json.obj [("center", Json.num ct)])])) w).2.w.cloudTemp.c4 = ct :=
  ⟨rfl, rfl, rfl, rfl, rfl, rfl, rfl⟩

/-- C5 counterexample: an HTTP 200 response whose body is valid JSON
(`{"hygro":{"temp":"x"}}`) still makes `Connect` fail, because field
extraction throws — so "200 and valid JSON" is not sufficient. -/
theorem connect_fails_on_extraction_exception :
    (⟨true, true, 200,
        some (Json.obj [("hygro", Json.obj [("temp", Json.str "x")])])⟩ :
      HttpAttempt).httpCode = 200 ∧
    (⟨true, true, 200,
        some (Json.obj [("hygro", Json.obj [("temp", Json.str "x")])])⟩ :
      HttpAttempt).body.isSome = true ∧
    (Connect ⟨true, true, 200,
        some (Json.obj [("hygro", Json.obj [("temp", Json.str "x")])])⟩ {}).1 =
      false := by decide

/-- C5 amended: `Connect` returns connected iff the transport layer
succeeds, the HTTP status is 200, the body parses as valid JSON, and no
exception is thrown during field extraction. -/
theorem connect_success_iff (a : HttpAttempt) (w : WeatherData) :
    (Connect a w).1 = true ↔
      (a.initOk = true ∧ a.curlOk = true ∧ a.httpCode = 200 ∧
        ∃ root, a.body = some root ∧ extractionThrows root = false) := by
  unfold Connect readHTTPData
  split_ifs with h1 h2 h3
  · simp [h1]
  · simp [h2]
  · simp [h3]
  · have h1' : a.initOk = true := by revert h1; cases a.initOk <;> simp
    have h2' : a.curlOk = true := by revert h2; cases a.curlOk <;> simp
    have h3' : a.httpCode = 200 := by revert h3; simp
    cases hb : a.body with
    | none => simp [parseJSONData, h1', h2', h3']
    | some root => simp [parseJSONData_some, h1', h2', h3']

/-- C6: parsing is idempotent on the snapshot — applying the same
document twice yields the same snapshot (all sensor fields and the
validity flag) as applying it once. -/
theorem parse_idempotent (input : Option Json) (w : WeatherData) :
    (parseJSONData input (parseJSONData input w).2.w).2.w =
      (parseJSONData input w).2.w := by
  cases input with
  | none => rfl
  | some root =>
    simp only [parseJSONData_some]
    refine WeatherData.ext ?_ ?_ ?_ ?_ ?_ ?_ ?_ ?_
    · simp only [wAfter_temperature, hWAfter_temperature]
      by_cases hc : hygroActive root && fAssigned (root.getMem "hygro") "temp" <;>
        simp [hc]
    · simp only [wAfter_humidity, hWAfter_humidity]
      by_cases hc : hygroActive root && !fThrows (root.getMem "hygro") "temp" &&
          fAssigned (root.getMem "hygro") "rh" <;>
        simp [hc]
    · simp only [wAfter_dewPoint, hWAfter_dewPoint]
      by_cases hc : hygroActive root && !fThrows (root.getMem "hygro") "temp" &&
          !fThrows (root.getMem "hygro") "rh" &&
          fAssigned (root.getMem "hygro") "dew_point" <;>
        simp [hc]
    · simp only [wAfter_lux]
      by_cases hc : !hThrow root &&
          (lightActive root && fAssigned (root.getMem "light") "lux") <;>
        simp [hc]
    · simp only [wAfter_skyBrightness]
      by_cases hc : !hThrow root &&
          (lightActive root && !fThrows (root.getMem "light") "lux" &&
            fAssigned (root.getMem "light") "sqm") <;>
        simp [hc]
    · refine CloudTemps.ext ?_ ?_ ?_ ?_ ?_
      · simp only [wAfter_c0]
      · simp only [wAfter_c1]
      · simp only [wAfter_c2]
      · simp only [wAfter_c3]
      · simp only [wAfter_c4]
        by_cases hc : !hThrow root && !lThrow root &&
            (cloudActive root && fAssigned (root.getMem "cloud") "center") <;>
          simp [hc]
    · simp only [wAfter_avgCloudTemp]
    · simp only [wAfter_dataValid, Bool.or_assoc, Bool.or_self]

/-- C7 counterexample: `{"hygro":{"temp":"x"}}` is accepted by the
top-level JSON parse, yet the parse operation returns failure and does
not mark the snapshot valid. -/
theorem parse_accepted_document_can_fail :
    (parseJSONData (some (Json.obj [("hygro",
        Json.obj [("temp", Json.str "x")])])) {}).1 = false ∧
    (parseJSONData (some (Json.obj [("hygro",
        Json.obj [("temp", Json.str "x")])])) {}).2.w.dataValid = false := by
  decide

/-- C7 amended: every accepted document whose field extraction throws no
exception parses successfully and marks the snapshot valid, however many
of the three namespaces are absent — in particular the empty object. -/
theorem parse_success_sets_valid (root : Json) (w : WeatherData)
    (h : extractionThrows root = false) :
    (parseJSONData (some root) w).1 = true ∧
    (parseJSONData (some root) w).2.w.dataValid = true := by
  simp [parseJSONData_some, h, wAfter_dataValid]

/-- C7 witness: parsing the empty object `{}` succeeds and sets the
validity flag with no sensor field provided. -/
theorem parse_success_sets_valid_witness :
    extractionThrows (Json.obj []) = false ∧
    ((parseJSONData (some (Json.obj [])) {}).1 = true ∧
      (parseJSONData (some (Json.obj [])) {}).2.w.dataValid = true) :=
  ⟨by decide, parse_success_sets_valid _ {} (by decide)⟩

/-- C8: a timer tick while disconnected only re-arms the timer at the
current polling period, with no poll and no state change; while
connected it performs exactly one poll and re-arms the timer regardless
of the poll's outcome. -/
theorem timer_tick_behavior (a : HttpAttempt) (d : Driver) :
    (d.connected = false →
      TimerHit a d = ⟨d, false, some d.pollingPeriod⟩) ∧
    (d.connected = true →
      TimerHit a d =
        ⟨{ d with weather := (readHTTPData a d.weather).2.w }, true,
          some d.pollingPeriod⟩) := by
  constructor <;> intro h <;> simp [TimerHit, h]

/-- C8 witness: both branches at concrete driver states. -/
theorem timer_tick_behavior_witness :
    TimerHit ⟨false, false, 0, none⟩ initialDriver =
      ⟨initialDriver, false, some 2000⟩ ∧
    TimerHit ⟨false, false, 0, none⟩ { initialDriver with connected := true } =
      ⟨{ initialDriver with
          connected := true,
          weather :=
            (readHTTPData ⟨false, false, 0, none⟩ initialDriver.weather).2.w },
        true, some 2000⟩ :=
  ⟨(timer_tick_behavior ⟨false, false, 0, none⟩ initialDriver).1 rfl,
    (timer_tick_behavior ⟨false, false, 0, none⟩
        { initialDriver with connected := true }).2 rfl⟩

/-!  Frame lemmas on the unused cloud-array slots, for C9. -/

lemma parseJSONData_c0 (input : Option Json) (w : WeatherData) :
    (parseJSONData input w).2.w.cloudTemp.c0 = w.cloudTemp.c0 := by
  cases input with
  | none => rfl
  | some root => simp [parseJSONData_some, wAfter_c0]

lemma parseJSONData_c1 (input : Option Json) (w : WeatherData) :
    (parseJSONData input w).2.w.cloudTemp.c1 = w.cloudTemp.c1 := by
  cases input with
  | none => rfl
  | some root => simp [parseJSONData_some, wAfter_c1]

lemma parseJSONData_c2 (input : Option Json) (w : WeatherData) :
    (parseJSONData input w).2.w.cloudTemp.c2 = w.cloudTemp.c2 := by
  cases input with
  | none => rfl
  | some root => simp [parseJSONData_some, wAfter_c2]

lemma parseJSONData_c3 (input : Option Json) (w : WeatherData) :
    (parseJSONData input w).2.w.cloudTemp.c3 = w.cloudTemp.c3 := by
  cases input with
  | none => rfl
  | some root => simp [parseJSONData_some, wAfter_c3]

lemma parseJSONData_avg (input : Option Json) (w : WeatherData) :
    (parseJSONData input w).2.w.avgCloudTemp = w.avgCloudTemp := by
  cases input with
  | none => rfl
  | some root => simp [parseJSONData_some, wAfter_avgCloudTemp]

lemma readHTTPData_c0 (a : HttpAttempt) (w : WeatherData) :
    (readHTTPData a w).2.w.cloudTemp.c0 = w.cloudTemp.c0 := by
  unfold readHTTPData
  split_ifs <;> simp [parseJSONData_c0]

lemma readHTTPData_c1 (a : HttpAttempt) (w : WeatherData) :
    (readHTTPData a w).2.w.cloudTemp.c1 = w.cloudTemp.c1 := by
  unfold readHTTPData
  split_ifs <;> simp [parseJSONData_c1]

lemma readHTTPData_c2 (a : HttpAttempt) (w : WeatherData) :
    (readHTTPData a w).2.w.cloudTemp.c2 = w.cloudTemp.c2 := by
  unfold readHTTPData
  split_ifs <;> simp [parseJSONData_c2]

lemma readHTTPData_c3 (a : HttpAttempt) (w : WeatherData) :
    (readHTTPData a w).2.w.cloudTemp.c3 = w.cloudTemp.c3 := by
  unfold readHTTPData
  split_ifs <;> simp [parseJSONData_c3]

lemma readHTTPData_avg (a : HttpAttempt) (w : WeatherData) :
    (readHTTPData a w).2.w.avgCloudTemp = w.avgCloudTemp := by
  unfold readHTTPData
  split_ifs <;> simp [parseJSONData_avg]

/-- One operation preserves the four unused cloud slots and the average. -/
lemma applyOp_cloud_frame (op : Op) (d : Driver) :
    (applyOp op d).weather.cloudTemp.c0 = d.weather.cloudTemp.c0 ∧
    (applyOp op d).weather.cloudTemp.c1 = d.weather.cloudTemp.c1 ∧
    (applyOp op d).weather.cloudTemp.c2 = d.weather.cloudTemp.c2 ∧
    (applyOp op d).weather.cloudTemp.c3 = d.weather.cloudTemp.c3 ∧
    (applyOp op d).weather.avgCloudTemp = d.weather.avgCloudTemp := by
  cases op with
  | connect a =>
    simp [applyOp, readHTTPData_c0, readHTTPData_c1, readHTTPData_c2,
      readHTTPData_c3, readHTTPData_avg]
  | disconnect => simp [applyOp]
  | timerHit a =>
    by_cases hc : d.connected <;>
      simp [applyOp, TimerHit, hc, readHTTPData_c0, readHTTPData_c1,
        readHTTPData_c2, readHTTPData_c3, readHTTPData_avg]
  | updateWeatherOp => simp [applyOp]
  | parse input =>
    simp [applyOp, parseJSONData_c0, parseJSONData_c1, parseJSONData_c2,
      parseJSONData_c3, parseJSONData_avg]
  | setUrl u => simp [applyOp]

/-- C9: along every operation sequence from startup, cloud-array slots 0
through 3 and the average stay at their initial zero; a parse changes no
slot other than slot 4 (the center slot), and changes slot 4 only when
the document provides a readable `cloud.center` member. -/
theorem cloud_slots_invariant (ops : List Op) :
    ((run ops initialDriver).weather.cloudTemp.c0 = 0 ∧
      (run ops initialDriver).weather.cloudTemp.c1 = 0 ∧
      (run ops initialDriver).weather.cloudTemp.c2 = 0 ∧
      (run ops initialDriver).weather.cloudTemp.c3 = 0 ∧
      (run ops initialDriver).weather.avgCloudTemp = 0) ∧
    (∀ (input : Option Json) (w : WeatherData),
      ((parseJSONData input w).2.w.cloudTemp.c0 = w.cloudTemp.c0 ∧
        (parseJSONData input w).2.w.cloudTemp.c1 = w.cloudTemp.c1 ∧
        (parseJSONData input w).2.w.cloudTemp.c2 = w.cloudTemp.c2 ∧
        (parseJSONData input w).2.w.cloudTemp.c3 = w.cloudTemp.c3 ∧
        (parseJSONData input w).2.w.avgCloudTemp = w.avgCloudTemp) ∧
      ((parseJSONData input w).2.w.cloudTemp.c4 ≠ w.cloudTemp.c4 →
        ∃ root, input = some root ∧ centerProvided root = true)) := by
  constructor
  · have step : ∀ (d : Driver),
        (d.weather.cloudTemp.c0 = 0 ∧ d.weather.cloudTemp.c1 = 0 ∧
          d.weather.cloudTemp.c2 = 0 ∧ d.weather.cloudTemp.c3 = 0 ∧
          d.weather.avgCloudTemp = 0) →
        ∀ ops : List Op,
          (run ops d).weather.cloudTemp.c0 = 0 ∧
          (run ops d).weather.cloudTemp.c1 = 0 ∧
          (run ops d).weather.cloudTemp.c2 = 0 ∧
          (run ops d).weather.cloudTemp.c3 = 0 ∧
          (run ops d).weather.avgCloudTemp = 0 := by
      intro d hd ops
      induction ops generalizing d with
      | nil => exact hd
      | cons op rest ih =>
        have h := applyOp_cloud_frame op d
        exact ih (applyOp op d)
          ⟨h.1.trans hd.1, h.2.1.trans hd.2.1, h.2.2.1.trans hd.2.2.1,
            h.2.2.2.1.trans hd.2.2.2.1, h.2.2.2.2.trans hd.2.2.2.2⟩
    exact step initialDriver ⟨rfl, rfl, rfl, rfl, rfl⟩ ops
  · intro input w
    refine ⟨⟨parseJSONData_c0 input w, parseJSONData_c1 input w,
      parseJSONData_c2 input w, parseJSONData_c3 input w,
      parseJSONData_avg input w⟩, ?_⟩
    intro hne
    cases input with
    | none => exact absurd rfl hne
    | some root =>
      refine ⟨root, rfl, ?_⟩
      rw [parseJSONData_some] at hne
      simp only [wAfter_c4] at hne
      by_cases hc : !hThrow root && !lThrow root &&
          (cloudActive root && fAssigned (root.getMem "cloud") "center")
      · have h1 : cloudActive root = true := by
          revert hc
          cases cloudActive root <;> simp
        have h2 : fAssigned (root.getMem "cloud") "center" = true := by
          revert hc
          cases fAssigned (root.getMem "cloud") "center" <;> simp
        have h3 : ((root.getMem "cloud").getMem "center").isNull = false := by
          revert h2
          unfold fAssigned
          cases ((root.getMem "cloud").getMem "center").isNull <;> simp
        simp [centerProvided, h1, h3]
      · rw [if_neg] at hne
        · exact absurd rfl hne
        · simp only [Bool.not_eq_true] at hc
          simp [hc]

/-- C9 witness: after parsing `{"cloud":{"center":5}}` slot 0 is still
zero, and the slot-4 change is justified by a provided center member. -/
theorem cloud_slots_invariant_witness :
    (run [Op.parse (some (Json.obj [("cloud", Json.obj [("center", Json.num 5)])]))]
        initialDriver).weather.cloudTemp.c0 = 0 ∧
    (∃ root,
      (some (Json.obj [("cloud", Json.obj [("center", Json.num 5)])]) : Option Json) =
          some root ∧
        centerProvided root = true) :=
  ⟨(cloud_slots_invariant
      [Op.parse (some (Json.obj [("cloud", Json.obj [("center", Json.num 5)])]))]).1.1,
    ((cloud_slots_invariant []).2
        (some (Json.obj [("cloud", Json.obj [("center", Json.num 5)])])) {}).2
      (by decide)⟩

/-- C10 counterexample: `{"hygro":{"temp":"x"}}` contains `hygro` as an
object, yet the parse publishes nothing at all (the extraction exception
fires before the publish calls). -/
theorem hygro_object_without_publish :
    ((Json.obj [("hygro", Json.obj [("temp", Json.str "x")])]).getMem "hygro").isObject
        = true ∧
    (parseJSONData (some (Json.obj [("hygro", Json.obj [("temp", Json.str "x")])]))
        {}).2.pubs = [] := by decide

/-- C10 amended: when a document contains `hygro` as an object and no
field-extraction exception occurs in that block or before it, the parse
publishes all three hygro parameters with the snapshot's current values
— in particular an absent (null) `temp` re-publishes the prior stored
temperature; the same holds for the `light` namespace and its two
parameters, provided the hygro block did not throw either. -/
theorem namespace_republishes_current_values (root : Json) (w : WeatherData) :
    (hThrow root = false → hasMem root "hygro" = true →
      (root.getMem "hygro").isObject = true →
      ((("WEATHER_TEMPERATURE", (parseJSONData (some root) w).2.w.temperature) ∈
          (parseJSONData (some root) w).2.pubs ∧
        ("WEATHER_HUMIDITY", (parseJSONData (some root) w).2.w.humidity) ∈
          (parseJSONData (some root) w).2.pubs ∧
        ("WEATHER_DEW_POINT", (parseJSONData (some root) w).2.w.dewPoint) ∈
          (parseJSONData (some root) w).2.pubs) ∧
        (((root.getMem "hygro").getMem "temp").isNull = true →
          (parseJSONData (some root) w).2.w.temperature = w.temperature))) ∧
    (hThrow root = false → lThrow root = false → hasMem root "light" = true →
      (root.getMem "light").isObject = true →
      ((("WEATHER_LIGHT_LUX", (parseJSONData (some root) w).2.w.lux) ∈
          (parseJSONData (some root) w).2.pubs ∧
        ("WEATHER_SKY_BRIGHTNESS", (parseJSONData (some root) w).2.w.skyBrightness) ∈
          (parseJSONData (some root) w).2.pubs) ∧
        (((root.getMem "light").getMem "lux").isNull = true →
          (parseJSONData (some root) w).2.w.lux = w.lux))) := by
  constructor
  · intro hth hhm hho
    have hmt : memThrows root = false := hasMem_memThrows root _ hhm
    have hact : hygroActive root = true := by simp [hygroActive, hmt, hhm, hho]
    rw [parseJSONData_some]
    constructor
    · simp only [pubsAfter, hth, if_false, hPubs, hact, if_true, Bool.false_eq_true]
      refine ⟨?_, ?_, ?_⟩ <;>
        simp [wAfter_temperature, wAfter_humidity, wAfter_dewPoint,
          List.mem_append]
    · intro hnull
      simp [wAfter_temperature, hWAfter_temperature, fAssigned, hnull]
  · intro hth hlt hhm hho
    have hmt : memThrows root = false := hasMem_memThrows root _ hhm
    have hact : lightActive root = true := by simp [lightActive, hmt, hhm, hho]
    rw [parseJSONData_some]
    constructor
    · simp only [pubsAfter, hth, hlt, if_false, lPubs, hact, if_true,
        Bool.false_eq_true]
      constructor <;>
        · rw [List.mem_append]
          right
          rw [List.mem_append]
          left
          simp [wAfter_lux, lWAfter_lux, hWAfter_lux, wAfter_skyBrightness,
            lWAfter_skyBrightness, hWAfter_skyBrightness, hth]
    · intro hnull
      simp [wAfter_lux, fAssigned, hnull]

/-- C10 witness: `{"hygro":{"rh":55},"light":{}}` re-publishes the prior
temperature (3) for the absent `temp` field and the prior lux (9) for
the empty `light` namespace. -/
theorem namespace_republishes_current_values_witness :
    (("WEATHER_TEMPERATURE",
        (parseJSONData
          (some (Json.obj [("hygro", Json.obj [("rh", Json.num 55)]),
            ("light", Json.obj [])])) { temperature := 3, lux := 9 }).2.w.temperature) ∈
      (parseJSONData
        (some (Json.obj [("hygro", Json.obj [("rh", Json.num 55)]),
          ("light", Json.obj [])])) { temperature := 3, lux := 9 }).2.pubs) ∧
    (parseJSONData
      (some (Json.obj [("hygro", Json.obj [("rh", Json.num 55)]),
        ("light", Json.obj [])])) { temperature := 3, lux := 9 }).2.w.temperature =
      ({ temperature := 3, lux := 9 } : WeatherData).temperature ∧
    (("WEATHER_LIGHT_LUX",
        (parseJSONData
          (some (Json.obj [("hygro", Json.obj [("rh", Json.num 55)]),
            ("light", Json.obj [])])) { temperature := 3, lux := 9 }).2.w.lux) ∈
      (parseJSONData
        (some (Json.obj [("hygro", Json.obj [("rh", Json.num 55)]),
          ("light", Json.obj [])])) { temperature := 3, lux := 9 }).2.pubs) ∧
    (parseJSONData
      (some (Json.obj [("hygro", Json.obj [("rh", Json.num 55)]),
        ("light", Json.obj [])])) { temperature := 3, lux := 9 }).2.w.lux =
      ({ temperature := 3, lux := 9 } : WeatherData).lux :=
  ⟨(((namespace_republishes_current_values _ _).1 (by decide) (by decide)
      (by decide)).1).1,
    ((namespace_republishes_current_values _ { temperature := 3, lux := 9 }).1
        (by decide) (by decide) (by decide)).2 (by decide),
    (((namespace_republishes_current_values _ _).2 (by decide) (by decide)
        (by decide) (by decide)).1).1,
    ((namespace_republishes_current_values _ { temperature := 3, lux := 9 }).2
        (by decide) (by decide) (by decide) (by decide)).2 (by decide)⟩

end AMSKY01
